import Mathlib

/-!
Verification of the `hoverTooltip` Svelte action (web hover-tooltip lifecycle
controller). The action closes over a target element and mutable content
variables; it mounts a floating `HoverTooltip` component on mouse-over,
destroys it on mouse-leave, patches only the text label on `update`, and
removes both listeners on `destroy`.

The embedding models the controller's closure state explicitly: the optional
live component handle (`tooltipComponent`), the three mutable content
variables (`curTooltipText`, `curTooltipBodyComponent`, `curTooltipBodyProps`),
whether each of the two DOM listeners is registered, and instrumentation
counters for how many component instances were constructed and `$destroy`ed.
The body-component type `C` and the props-bag type `P` are opaque parameters,
as in the source (`typeof SvelteComponent` and `Record<string, unknown>`).
-/

set_option autoImplicit false

namespace HoverTooltipAction

variable {C P : Type}

/-- A bounding client rectangle, as returned by `getBoundingClientRect`.
Coordinates are rationals so that `width / 2` is exact. -/
structure Rect where
  left : ℚ
  top : ℚ
  width : ℚ
  height : ℚ
deriving DecidableEq, Repr

/-- `DOMRect.bottom` is `top + height`. -/
def Rect.bottom (r : Rect) : ℚ := r.top + r.height

/-- The options bag accepted by the action and by `update`
(`HoverTooltipOptions` in the source). -/
structure HoverTooltipOptions (C P : Type) where
  tooltipText : Option String
  tooltipBodyComponent : Option C
  tooltipBodyProps : Option P
deriving DecidableEq, Repr

/-- The mount parent passed as `target:` to the component constructor. The
source always passes `document.body`; the `element` constructor exists so
that this fact is expressible rather than forced by the type. -/
inductive MountTarget
  | documentBody
  | element (id : ℕ)
deriving DecidableEq, Repr

/-- The props object the `HoverTooltip` component is constructed with. -/
structure HoverTooltipProps (C P : Type) where
  tooltipText : Option String
  tooltipBodyComponent : Option C
  tooltipBodyProps : Option P
  x : ℚ
  y : ℚ
deriving DecidableEq, Repr

/-- A mounted component instance: its construction props, its mount parent,
and an identity (`id` is the creation index, so distinct mounts within one
controller are distinguishable). -/
structure SvelteInstance (C P : Type) where
  id : ℕ
  props : HoverTooltipProps C P
  target : MountTarget
deriving DecidableEq, Repr

/-- The whole closure state of one `hoverTooltip` controller. -/
structure ControllerState (C P : Type) where
  /-- Identity of the element the action is bound to. -/
  element : ℕ
  /-- The `tooltipComponent` closure variable (the live instance handle). -/
  tooltipComponent : Option (SvelteInstance C P)
  /-- The `curTooltipText` closure variable. -/
  curTooltipText : Option String
  /-- The `curTooltipBodyComponent` closure variable. -/
  curTooltipBodyComponent : Option C
  /-- The `curTooltipBodyProps` closure variable. -/
  curTooltipBodyProps : Option P
  /-- Whether the `mouseover` listener is currently registered. -/
  mouseOverListener : Bool
  /-- Whether the `mouseleave` listener is currently registered. -/
  mouseLeaveListener : Bool
  /-- Instrumentation: number of `new HoverTooltip(...)` constructions. -/
  created : ℕ
  /-- Instrumentation: number of `$destroy()` calls on instances. -/
  destroyed : ℕ
deriving DecidableEq, Repr

/-- The action body: initialize the closure variables from the options and
register both listeners. No component is constructed here. -/
def hoverTooltip (element : ℕ) (opts : HoverTooltipOptions C P) :
    ControllerState C P where
  element := element
  tooltipComponent := none
  curTooltipText := opts.tooltipText
  curTooltipBodyComponent := opts.tooltipBodyComponent
  curTooltipBodyProps := opts.tooltipBodyProps
  mouseOverListener := true
  mouseLeaveListener := true
  created := 0
  destroyed := 0

/-- The `mouseOver` handler. `boundingRect` is what
`element.getBoundingClientRect()` returns at this moment. If a component is
already live the handler returns early; otherwise it constructs a new
instance from the current closure variables, anchored at the horizontal
center and bottom edge of the rectangle, mounted on `document.body`. -/
def mouseOver (boundingRect : Rect) (s : ControllerState C P) :
    ControllerState C P :=
  if s.tooltipComponent.isSome then s
  else
    { s with
      tooltipComponent := some
        { id := s.created
          props :=
            { tooltipText := s.curTooltipText
              tooltipBodyComponent := s.curTooltipBodyComponent
              tooltipBodyProps := s.curTooltipBodyProps
              x := boundingRect.left + boundingRect.width / 2
              y := boundingRect.bottom }
          target := MountTarget.documentBody }
      created := s.created + 1 }

/-- The `mouseLeave` handler: `tooltipComponent?.$destroy()` (a destroy is
counted only when a component was live), then the handle is cleared. -/
def mouseLeave (s : ControllerState C P) : ControllerState C P :=
  { s with
    tooltipComponent := none
    destroyed := s.destroyed + (if s.tooltipComponent.isSome then 1 else 0) }

/-- The `update` method: overwrite all three closure variables with the new
options, then `tooltipComponent?.$set({tooltipText})`, which patches only the
`tooltipText` prop of the live instance, if any. -/
def update (opts : HoverTooltipOptions C P) (s : ControllerState C P) :
    ControllerState C P :=
  { s with
    curTooltipText := opts.tooltipText
    curTooltipBodyComponent := opts.tooltipBodyComponent
    curTooltipBodyProps := opts.tooltipBodyProps
    tooltipComponent := s.tooltipComponent.map fun inst =>
      { inst with props := { inst.props with tooltipText := opts.tooltipText } } }

/-- The `destroy` method: run `mouseLeave()` unconditionally, then remove
both listeners (`removeEventListener` on an absent listener is a no-op). -/
def destroy (s : ControllerState C P) : ControllerState C P :=
  let s1 := mouseLeave s
  { s1 with mouseOverListener := false, mouseLeaveListener := false }

/-- An event processed by the controller. `enter` carries the bounding
rectangle the environment reports at that moment. -/
inductive Event (C P : Type)
  | enter (boundingRect : Rect)
  | leave
  | update (opts : HoverTooltipOptions C P)
  | detach
deriving DecidableEq, Repr

/-- Process one event: the corresponding handler or method runs. -/
def step (s : ControllerState C P) : Event C P → ControllerState C P
  | Event.enter r => mouseOver r s
  | Event.leave => mouseLeave s
  | Event.update opts => update opts s
  | Event.detach => destroy s

/-- Process a sequence of events. -/
def run (s : ControllerState C P) (evs : List (Event C P)) :
    ControllerState C P :=
  evs.foldl step s

/-- DOM-level delivery of an event: `mouseover`/`mouseleave` handlers only
run while their listener is registered; `update` and `destroy` are direct
method calls on the returned action object. -/
def dispatch (s : ControllerState C P) : Event C P → ControllerState C P
  | Event.enter r => if s.mouseOverListener then mouseOver r s else s
  | Event.leave => if s.mouseLeaveListener then mouseLeave s else s
  | Event.update opts => update opts s
  | Event.detach => destroy s

/-- Deliver a sequence of events at the DOM level. -/
def runDispatch (s : ControllerState C P) (evs : List (Event C P)) :
    ControllerState C P :=
  evs.foldl dispatch s

/-! ### Spec-side predicates -/

/-- Whether an event is one of the relevant kinds (enter, leave, detach) for
the hovering-interval characterization; `update` is irrelevant to it. -/
def Event.relevant : Event C P → Bool
  | Event.enter _ => true
  | Event.leave => true
  | Event.detach => true
  | Event.update _ => false

/-- Whether an event is an enter. -/
def Event.isEnter : Event C P → Bool
  | Event.enter _ => true
  | _ => false

/-- The last relevant (enter/leave/detach) event of a sequence, if any. -/
def lastRelevant? : List (Event C P) → Option (Event C P)
  | [] => none
  | e :: rest =>
    match lastRelevant? rest with
    | some e' => some e'
    | none => if e.relevant then some e else none

/-- The spec's hovering-interval predicate: the last relevant processed event
was an enter, with no leave or detach after it. -/
def hoveringSpec (evs : List (Event C P)) : Bool :=
  match lastRelevant? evs with
  | some e => e.isEnter
  | none => false

/-- The last element of a list, or a default when the list is empty. -/
def lastOr (o : HoverTooltipOptions C P) :
    List (HoverTooltipOptions C P) → HoverTooltipOptions C P
  | [] => o
  | u :: us => lastOr u us

/-- The N alternating enter/leave pairs of claim C2, one pair per reported
rectangle. -/
def enterLeavePairs : List Rect → List (Event C P)
  | [] => []
  | r :: rs => Event.enter r :: Event.leave :: enterLeavePairs rs

/-! ### Helper lemmas -/

theorem run_nil (s : ControllerState C P) : run s [] = s := rfl

theorem run_cons (s : ControllerState C P) (e : Event C P)
    (evs : List (Event C P)) : run s (e :: evs) = run (step s e) evs := rfl

theorem mouseOver_isSome (r : Rect) (s : ControllerState C P) :
    (mouseOver r s).tooltipComponent.isSome = true := by
  unfold mouseOver
  by_cases h : s.tooltipComponent.isSome <;> simp [h]

theorem mouseLeave_tooltipComponent (s : ControllerState C P) :
    (mouseLeave s).tooltipComponent = none := rfl

theorem destroy_tooltipComponent (s : ControllerState C P) :
    (destroy s).tooltipComponent = none := rfl

theorem update_isSome (opts : HoverTooltipOptions C P)
    (s : ControllerState C P) :
    (update opts s).tooltipComponent.isSome = s.tooltipComponent.isSome := by
  unfold update
  cases s.tooltipComponent <;> simp

/-- After running any event sequence, the live-instance presence is decided
by the last relevant event of the sequence (or is unchanged when the
sequence has none). -/
theorem run_isSome_eq (evs : List (Event C P)) (s : ControllerState C P) :
    (run s evs).tooltipComponent.isSome =
      (match lastRelevant? evs with
       | some e => e.isEnter
       | none => s.tooltipComponent.isSome) := by
  induction evs generalizing s with
  | nil => simp [run_nil, lastRelevant?]
  | cons e rest ih =>
    rw [run_cons, ih]
    cases e with
    | enter r =>
      cases hrest : lastRelevant? (C := C) (P := P) rest with
      | some e' => simp [lastRelevant?, hrest]
      | none =>
        simp [lastRelevant?, hrest, Event.relevant, Event.isEnter, step,
          mouseOver_isSome]
    | leave =>
      cases hrest : lastRelevant? (C := C) (P := P) rest with
      | some e' => simp [lastRelevant?, hrest]
      | none =>
        simp [lastRelevant?, hrest, Event.relevant, Event.isEnter, step,
          mouseLeave_tooltipComponent]
    | update opts =>
      cases hrest : lastRelevant? (C := C) (P := P) rest with
      | some e' => simp [lastRelevant?, hrest]
      | none =>
        simp [lastRelevant?, hrest, Event.relevant, step, update_isSome]
    | detach =>
      cases hrest : lastRelevant? (C := C) (P := P) rest with
      | some e' => simp [lastRelevant?, hrest]
      | none =>
        simp [lastRelevant?, hrest, Event.relevant, Event.isEnter, step,
          destroy_tooltipComponent]

/-- The accounting invariant tying the instrumentation counters to the
presence of the live handle. -/
def liveInv (s : ControllerState C P) : Prop :=
  s.created = s.destroyed + (if s.tooltipComponent.isSome then 1 else 0)

theorem liveInv_hoverTooltip (element : ℕ) (opts : HoverTooltipOptions C P) :
    liveInv (hoverTooltip element opts) := by
  simp [liveInv, hoverTooltip]

theorem liveInv_step (s : ControllerState C P) (e : Event C P)
    (h : liveInv s) : liveInv (step s e) := by
  cases e with
  | enter r =>
    simp only [liveInv, step, mouseOver] at h ⊢
    by_cases hs : s.tooltipComponent.isSome <;> simp_all
  | leave =>
    simp only [liveInv, step, mouseLeave] at h ⊢
    by_cases hs : s.tooltipComponent.isSome <;> simp_all
  | update opts =>
    simpa only [liveInv, step, update, Option.isSome_map'] using h
  | detach =>
    simp only [liveInv, step, destroy, mouseLeave] at h ⊢
    by_cases hs : s.tooltipComponent.isSome <;> simp_all

theorem liveInv_run (s : ControllerState C P) (evs : List (Event C P))
    (h : liveInv s) : liveInv (run s evs) := by
  induction evs generalizing s with
  | nil => exact h
  | cons e rest ih => exact ih _ (liveInv_step s e h)

theorem mouseOver_created_of_none (r : Rect) (s : ControllerState C P)
    (h : s.tooltipComponent = none) :
    (mouseOver r s).created = s.created + 1 := by
  simp [mouseOver, h]

theorem mouseOver_destroyed (r : Rect) (s : ControllerState C P) :
    (mouseOver r s).destroyed = s.destroyed := by
  unfold mouseOver
  by_cases h : s.tooltipComponent.isSome <;> simp [h]

theorem mouseLeave_created (s : ControllerState C P) :
    (mouseLeave s).created = s.created := rfl

theorem mouseLeave_destroyed_of_isSome (s : ControllerState C P)
    (h : s.tooltipComponent.isSome = true) :
    (mouseLeave s).destroyed = s.destroyed + 1 := by
  simp [mouseLeave, h]

/-- Running the alternating enter/leave pairs from a state with no live
instance bumps both counters by the number of pairs and ends with no live
instance. -/
theorem run_enterLeavePairs (rects : List Rect) (s : ControllerState C P)
    (h : s.tooltipComponent = none) :
    (run s (enterLeavePairs rects)).created = s.created + rects.length
    ∧ (run s (enterLeavePairs rects)).destroyed = s.destroyed + rects.length
    ∧ (run s (enterLeavePairs rects)).tooltipComponent = none := by
  induction rects generalizing s with
  | nil => simp [enterLeavePairs, run_nil, h]
  | cons r rs ih =>
    have e1 : run s (enterLeavePairs (r :: rs)) =
        run (mouseLeave (mouseOver r s)) (enterLeavePairs rs) := rfl
    obtain ⟨ih1, ih2, ih3⟩ := ih (mouseLeave (mouseOver r s)) rfl
    refine ⟨?_, ?_, by rw [e1]; exact ih3⟩
    · rw [e1, ih1, mouseLeave_created, mouseOver_created_of_none r s h]
      have hl : (r :: rs).length = rs.length + 1 := rfl
      omega
    · rw [e1, ih2, mouseLeave_destroyed_of_isSome _ (mouseOver_isSome r s),
        mouseOver_destroyed]
      have hl : (r :: rs).length = rs.length + 1 := rfl
      omega

/-- Running a sequence of `update` events overwrites the stored content with
the last update's options and leaves the live-instance handle absent when it
was absent. -/
theorem run_updates (upds : List (HoverTooltipOptions C P))
    (opts0 : HoverTooltipOptions C P) (s : ControllerState C P)
    (hT : s.curTooltipText = opts0.tooltipText)
    (hB : s.curTooltipBodyComponent = opts0.tooltipBodyComponent)
    (hP : s.curTooltipBodyProps = opts0.tooltipBodyProps)
    (hN : s.tooltipComponent = none) :
    (run s (upds.map Event.update)).curTooltipText
        = (lastOr opts0 upds).tooltipText
    ∧ (run s (upds.map Event.update)).curTooltipBodyComponent
        = (lastOr opts0 upds).tooltipBodyComponent
    ∧ (run s (upds.map Event.update)).curTooltipBodyProps
        = (lastOr opts0 upds).tooltipBodyProps
    ∧ (run s (upds.map Event.update)).tooltipComponent = none := by
  induction upds generalizing opts0 s with
  | nil => exact ⟨hT, hB, hP, hN⟩
  | cons u us ih =>
    have e1 : run s ((u :: us).map Event.update) =
        run (update u s) (us.map Event.update) := rfl
    have hN' : (update u s).tooltipComponent = none := by simp [update, hN]
    have := ih u (update u s) rfl rfl rfl hN'
    rw [e1]
    exact this

/-- Enter events delivered at the DOM level are inert once the `mouseover`
listener has been removed. -/
theorem runDispatch_enters_of_unlistened (rects : List Rect)
    (s : ControllerState C P) (h : s.mouseOverListener = false) :
    runDispatch s (rects.map Event.enter) = s := by
  induction rects with
  | nil => rfl
  | cons r rs ih =>
    have e1 : runDispatch s ((r :: rs).map Event.enter) =
        runDispatch (dispatch s (Event.enter r)) (rs.map Event.enter) := rfl
    rw [e1, show dispatch s (Event.enter r) = s by simp [dispatch, h]]
    exact ih

/-- Invariant: any live instance was mounted on `document.body`. -/
def targetInv (s : ControllerState C P) : Prop :=
  ∀ inst, s.tooltipComponent = some inst →
    inst.target = MountTarget.documentBody

theorem targetInv_step (s : ControllerState C P) (e : Event C P)
    (h : targetInv s) : targetInv (step s e) := by
  cases e with
  | enter r =>
    intro inst hinst
    by_cases hs : s.tooltipComponent.isSome
    · exact h inst (by simpa [step, mouseOver, hs] using hinst)
    · have hfalse : s.tooltipComponent.isSome = false := by simpa using hs
      simp only [step, mouseOver, hfalse, Bool.false_eq_true, if_false,
        Option.some.injEq] at hinst
      subst hinst
      rfl
  | leave => intro inst hinst; simp [step, mouseLeave] at hinst
  | update opts =>
    intro inst hinst
    simp only [step, update] at hinst
    cases hc : s.tooltipComponent with
    | none => rw [hc] at hinst; simp at hinst
    | some a =>
      rw [hc] at hinst
      simp only [Option.map_some', Option.some.injEq] at hinst
      subst hinst
      exact h a hc
  | detach => intro inst hinst; simp [step, destroy, mouseLeave] at hinst

theorem targetInv_run (s : ControllerState C P) (evs : List (Event C P))
    (h : targetInv s) : targetInv (run s evs) := by
  induction evs generalizing s with
  | nil => exact h
  | cons e rest ih => exact ih _ (targetInv_step s e h)

/-! ### Concrete fixtures for witnesses and counterexamples -/

/-- The geometry scenario's bounding rectangle. -/
def rectEx : Rect := ⟨100, 50, 40, 20⟩

/-- Attach-time options: label A, body component 1 (standing for R1), props
x = 1. -/
def optsA : HoverTooltipOptions ℕ (List (String × Int)) :=
  ⟨some ("A"), some 1, some [("x", 1)]⟩

/-- Updated options: label B, body component 2 (standing for R2), props
x = 2. -/
def optsB : HoverTooltipOptions ℕ (List (String × Int)) :=
  ⟨some ("B"), some 2, some [("x", 2)]⟩

/-- Controller right after attaching with `optsA`. -/
def s0 : ControllerState ℕ (List (String × Int)) := hoverTooltip 7 optsA

/-- Controller after the first enter event on `rectEx`. -/
def sVis : ControllerState ℕ (List (String × Int)) := mouseOver rectEx s0

/-- The instance mounted by that first enter. -/
def instA : SvelteInstance ℕ (List (String × Int)) :=
  ⟨0, ⟨some ("A"), some 1, some [("x", 1)], 120, 70⟩,
    MountTarget.documentBody⟩

theorem sVis_tooltipComponent : sVis.tooltipComponent = some instA := by
  simp only [sVis, s0, mouseOver, hoverTooltip, optsA, rectEx, instA,
    Rect.bottom]
  norm_num

/-! ### Claims -/

/-- C1: for every controller and every sequence of processed
enter/leave/detach events, the live handle (`tooltipComponent`) is present
iff the controller is in the hovering interval — the last relevant processed
event was an enter with no leave or detach after it; and at most one live
instance exists at any time (the constructions exactly account for the
destructions plus the optionally present live handle). -/
theorem claim1_liveInstance_iff_hovering (element : ℕ)
    (opts : HoverTooltipOptions C P) (evs : List (Event C P)) :
    ((run (hoverTooltip element opts) evs).tooltipComponent.isSome
        = hoveringSpec evs)
    ∧ (run (hoverTooltip element opts) evs).created
        = (run (hoverTooltip element opts) evs).destroyed
          + (if (run (hoverTooltip element opts) evs).tooltipComponent.isSome
             then 1 else 0) := by
  constructor
  · rw [run_isSome_eq]
    unfold hoveringSpec
    cases h : lastRelevant? evs with
    | none => simp [hoverTooltip]
    | some e => rfl
  · exact liveInv_run _ evs (liveInv_hoverTooltip element opts)

/-- C2: a sequence of N alternating enter/leave pairs creates exactly N
instances and destroys exactly N, ends with no live instance, and at every
intermediate point at most one instance is live (created never exceeds
destroyed by more than one). -/
theorem claim2_no_leak (element : ℕ) (opts : HoverTooltipOptions C P)
    (rects : List Rect) :
    ((run (hoverTooltip element opts) (enterLeavePairs rects)).created
        = rects.length)
    ∧ ((run (hoverTooltip element opts) (enterLeavePairs rects)).destroyed
        = rects.length)
    ∧ ((run (hoverTooltip element opts)
          (enterLeavePairs rects)).tooltipComponent = none)
    ∧ ∀ n : ℕ,
        (run (hoverTooltip element opts)
            ((enterLeavePairs rects).take n)).created
          ≤ (run (hoverTooltip element opts)
              ((enterLeavePairs rects).take n)).destroyed + 1 := by
  obtain ⟨h1, h2, h3⟩ :=
    run_enterLeavePairs rects (hoverTooltip element opts) rfl
  refine ⟨by simpa [hoverTooltip] using h1,
    by simpa [hoverTooltip] using h2, h3, ?_⟩
  intro n
  have hinv := liveInv_run (hoverTooltip element opts)
    ((enterLeavePairs rects).take n) (liveInv_hoverTooltip element opts)
  unfold liveInv at hinv
  by_cases hb : (run (hoverTooltip element opts)
      ((enterLeavePairs rects).take n)).tooltipComponent.isSome
  · simp [hb] at hinv; omega
  · simp [hb] at hinv; omega

/-- C3 counterexample: attach with body component 1 and props x = 1, call
`update` with body component 2 and props x = 2, then deliver an enter event.
The mounted instance carries body component 2 and props x = 2, not the
attach-time values, so updates made after attach do change the body used by
a subsequent mount. -/
theorem claim3_counterexample :
    ((mouseOver rectEx (update optsB s0)).tooltipComponent.map
        (fun i => (i.props.tooltipBodyComponent, i.props.tooltipBodyProps))
      = some (some 2, some [("x", 2)]))
    ∧ (some (2 : ℕ), some [((("x") : String), (2 : ℤ))])
        ≠ (optsA.tooltipBodyComponent, optsA.tooltipBodyProps) := by
  constructor
  · rfl
  · simp [optsA]

/-- C3 amended: the body-component and body-props passed to the floating
renderer at a mount are the controller's currently stored values — those of
the last `update` call made before the mount, or the attach-time values when
no update occurred. Updates thus do affect subsequent mounts; only an
already-live instance is never body-patched. -/
theorem claim3_amended_mount_uses_current_body (element : ℕ)
    (opts : HoverTooltipOptions C P) (upds : List (HoverTooltipOptions C P))
    (r : Rect) :
    (mouseOver r
        (run (hoverTooltip element opts)
          (upds.map Event.update))).tooltipComponent.map
        (fun i => (i.props.tooltipBodyComponent, i.props.tooltipBodyProps))
      = some ((lastOr opts upds).tooltipBodyComponent,
          (lastOr opts upds).tooltipBodyProps) := by
  obtain ⟨hT, hB, hP, hN⟩ :=
    run_updates upds opts (hoverTooltip element opts) rfl rfl rfl rfl
  simp [mouseOver, hN, hB, hP]

/-- C4: on a visible controller, `update` patches only the text label of the
live instance: the handle still holds the same instance identity with the
same body-component, body-props and anchor, only `tooltipText` replaced, and
no construction or destruction happens. -/
theorem claim4_update_patches_label_only (s : ControllerState C P)
    (opts : HoverTooltipOptions C P) (inst : SvelteInstance C P)
    (h : s.tooltipComponent = some inst) :
    (update opts s).tooltipComponent
        = some { inst with
            props := { inst.props with tooltipText := opts.tooltipText } }
    ∧ (update opts s).created = s.created
    ∧ (update opts s).destroyed = s.destroyed := by
  refine ⟨?_, rfl, rfl⟩
  simp [update, h]

/-- Witness for C4: attach with label A and body 1, enter, then update to
label B and body 2; the live instance keeps identity 0 and body 1, with only
the label patched to B. -/
theorem claim4_witness :
    (sVis.tooltipComponent = some instA)
    ∧ ((update optsB sVis).tooltipComponent
        = some { instA with
            props := { instA.props with tooltipText := optsB.tooltipText } }
      ∧ (update optsB sVis).created = sVis.created
      ∧ (update optsB sVis).destroyed = sVis.destroyed) :=
  ⟨sVis_tooltipComponent,
    claim4_update_patches_label_only sVis optsB instA sVis_tooltipComponent⟩

/-- C5: every mount anchors the instance at the horizontal center and bottom
edge of the target's bounding rectangle. -/
theorem claim5_anchor_position (s : ControllerState C P) (r : Rect)
    (h : s.tooltipComponent = none) :
    (mouseOver r s).tooltipComponent.map (fun i => (i.props.x, i.props.y))
      = some (r.left + r.width / 2, r.top + r.height) := by
  simp [mouseOver, h, Rect.bottom]

/-- Witness for C5: for bounding rectangle left 100, top 50, width 40,
height 20, the mount anchor is (120, 70). -/
theorem claim5_witness :
    (s0.tooltipComponent = none)
    ∧ (mouseOver rectEx s0).tooltipComponent.map
        (fun i => (i.props.x, i.props.y)) = some (120, 70) := by
  refine ⟨rfl, ?_⟩
  rw [claim5_anchor_position s0 rectEx rfl]
  norm_num [rectEx]

/-- C6: `destroy` is idempotent — a second call reproduces exactly the same
state (so no double destruction of the instance and no listener-removal
error), and one call already leaves no live instance and both listeners
removed. -/
theorem claim6_destroy_idempotent (s : ControllerState C P) :
    destroy (destroy s) = destroy s
    ∧ (destroy s).tooltipComponent = none
    ∧ (destroy s).mouseOverListener = false
    ∧ (destroy s).mouseLeaveListener = false := by
  refine ⟨?_, rfl, rfl, rfl⟩
  simp [destroy, mouseLeave]

/-- C7: when an instance is already live, a further enter event is a
complete no-op — the whole controller state, the live handle and its anchor
included, is unchanged, whatever rectangle the target reports. -/
theorem claim7_enter_noop_when_live (s : ControllerState C P) (r : Rect)
    (h : s.tooltipComponent.isSome = true) :
    mouseOver r s = s := by
  simp [mouseOver, h]

/-- Witness for C7: a second enter on the visible controller, with a fresh
rectangle, changes nothing. -/
theorem claim7_witness :
    (sVis.tooltipComponent.isSome = true)
    ∧ mouseOver ⟨1, 2, 3, 4⟩ sVis = sVis :=
  ⟨rfl, claim7_enter_noop_when_live sVis ⟨1, 2, 3, 4⟩ rfl⟩

/-- C8: attach mounts nothing; after attach immediately followed by detach,
no instance was ever constructed and enter events delivered to the
now-unlistened target leave the state untouched. -/
theorem claim8_lazy_and_detach_inert (element : ℕ)
    (opts : HoverTooltipOptions C P) (rects : List Rect) :
    (hoverTooltip element opts).tooltipComponent = none
    ∧ (hoverTooltip element opts).created = 0
    ∧ (destroy (hoverTooltip element opts)).created = 0
    ∧ (destroy (hoverTooltip element opts)).tooltipComponent = none
    ∧ runDispatch (destroy (hoverTooltip element opts))
        (rects.map Event.enter) = destroy (hoverTooltip element opts) := by
  refine ⟨rfl, rfl, rfl, rfl, ?_⟩
  exact runDispatch_enters_of_unlistened rects _ rfl

/-- C9: on a degenerate all-zero bounding rectangle (detached target), the
enter handler still mounts an instance, with the anchor degraded to
(0, 0). -/
theorem claim9_degenerate_rect (s : ControllerState C P)
    (h : s.tooltipComponent = none) :
    ((mouseOver ⟨0, 0, 0, 0⟩ s).tooltipComponent.isSome = true)
    ∧ (mouseOver ⟨0, 0, 0, 0⟩ s).tooltipComponent.map
        (fun i => (i.props.x, i.props.y)) = some (0, 0) := by
  refine ⟨mouseOver_isSome _ s, ?_⟩
  simp [mouseOver, h, Rect.bottom]

/-- Witness for C9 on the freshly attached controller. -/
theorem claim9_witness :
    (s0.tooltipComponent = none)
    ∧ (((mouseOver ⟨0, 0, 0, 0⟩ s0).tooltipComponent.isSome = true)
      ∧ (mouseOver ⟨0, 0, 0, 0⟩ s0).tooltipComponent.map
          (fun i => (i.props.x, i.props.y)) = some (0, 0)) :=
  ⟨rfl, claim9_degenerate_rect s0 rfl⟩

/-- C10: every live instance ever observable, over any event sequence on any
controller, was mounted with `document.body` as mount parent — never the
bound target element. -/
theorem claim10_mount_parent_is_body (element : ℕ)
    (opts : HoverTooltipOptions C P) (evs : List (Event C P))
    (inst : SvelteInstance C P)
    (h : (run (hoverTooltip element opts) evs).tooltipComponent
        = some inst) :
    inst.target = MountTarget.documentBody := by
  refine targetInv_run (hoverTooltip element opts) evs ?_ inst h
  intro i hi
  simp [hoverTooltip] at hi

/-- Witness for C10: the instance mounted by a concrete enter event sits on
`document.body`. -/
theorem claim10_witness :
    ((run (hoverTooltip 7 optsA) [Event.enter rectEx]).tooltipComponent
        = some instA)
    ∧ instA.target = MountTarget.documentBody :=
  ⟨sVis_tooltipComponent,
    claim10_mount_parent_is_body 7 optsA [Event.enter rectEx] instA
      sVis_tooltipComponent⟩

end HoverTooltipAction
